import Mathlib

/-!
Verification of the `my_heater` climate-control integration.

This file shallowly embeds the control logic of `src/my_heater/climate.py`
(and the configuration validation of `src/my_heater/config_flow.py`) as pure
Lean functions and proves properties of the specification against them.

Modelling choices:
* temperatures, power readings and timestamps are rationals (Python floats
  carry exact decimal values in all scenarios of interest; timestamps are
  seconds since an arbitrary epoch, so `datetime` subtraction becomes
  rational subtraction);
* the side effects of an operation (scene activations, sleeps, state
  publication, monitoring-task start/stop) are recorded in an `Effect`
  trace in program order;
* sensor reads, the wall clock and scene-activation outcomes are inputs
  to the embedded functions, since in the source they are external queries;
* Python `round` (banker's rounding, round-half-to-even) is embedded
  exactly as `pyRound`.
-/

/-- `HVACMode` as used by the entity: only OFF and HEAT are supported
(`_attr_hvac_modes = [HVACMode.OFF, HVACMode.HEAT]`). -/
inductive HVACMode where
  | off : HVACMode
  | heat : HVACMode
deriving DecidableEq, Repr

/-- A requested mode passed to `async_set_hvac_mode`: the host may request
OFF, HEAT, or some other (unsupported) mode. -/
inductive ReqMode where
  | off : ReqMode
  | heat : ReqMode
  | other : ReqMode
deriving DecidableEq, Repr

/-- Whether a requested mode equals the current `_attr_hvac_mode`
(the `hvac_mode == current_mode` comparison at the top of
`async_set_hvac_mode`). -/
def reqMatches : ReqMode → HVACMode → Bool
  | ReqMode.off, HVACMode.off => true
  | ReqMode.heat, HVACMode.heat => true
  | _, _ => false

/-- Observable side effects of an operation, in program order.
`activateScene id ok` records a call of `_activate_scene` on scene `id`
together with its returned success flag; scene entity ids are abstracted
to naturals. -/
inductive Effect where
  | stopMonitoring : Effect
  | startMonitoring : Effect
  | activateScene : ℕ → Bool → Effect
  | sleepSeconds : ℚ → Effect
  | writeHaState : Effect
deriving DecidableEq, Repr

/-- Configuration of one heater (from the config entry; `timer_minutes`
is the live options value `_timer_duration_minutes`, a non-negative int).
`powerSensorConfigured` is the truthiness of `self._power_usage_sensor`. -/
structure HeaterConfig where
  scene_turn_on_off : ℕ
  temperature_up_scene : ℕ
  temperature_down_scene : ℕ
  powerSensorConfigured : Bool
  min_temp : ℚ
  max_temp : ℚ
  default_temp : ℚ
  timer_minutes : ℕ
deriving DecidableEq, Repr

/-- The entity's live runtime state (the mutable `_attr_*` fields and
timer bookkeeping of `MyHeaterClimate`). -/
structure HeaterState where
  hvac_mode : HVACMode
  target_temperature : ℚ
  heat_start_time : Option ℚ
  last_mode_change_time : Option ℚ
deriving DecidableEq, Repr

/-- `VOLTAGE_ON_THRESHOLD = 10` (climate.py line 28). -/
def VOLTAGE_ON_THRESHOLD : ℚ := 10

/-- `Sleep_After_Power_Off = 60` (climate.py line 26). -/
def Sleep_After_Power_Off : ℚ := 60

/-- `SCENE_ACTIVATION_DELAY = 1.0` (climate.py line 27). -/
def SCENE_ACTIVATION_DELAY : ℚ := 1

/-- `MONITORING_INTERVAL_SECONDS = 120` (climate.py line 25). -/
def MONITORING_INTERVAL_SECONDS : ℚ := 120

/-- `AUTO_ON_COOLDOWN_SECONDS = 15` (climate.py line 29). -/
def AUTO_ON_COOLDOWN_SECONDS : ℚ := 15

/-- Python `round` on a rational: round half to even (banker's rounding),
as Python 3 `round` does for the values arising here. -/
def pyRound (q : ℚ) : ℤ :=
  let f := Int.floor q
  let frac := q - f
  if frac < 1 / 2 then f
  else if 1 / 2 < frac then f + 1
  else if f % 2 = 0 then f else f + 1

/-- Is an effect a scene activation (an actuator command)? -/
def isActivation : Effect → Bool
  | Effect.activateScene _ _ => true
  | _ => false

/-- Is an effect a scene activation that returned success? -/
def isOkActivation : Effect → Bool
  | Effect.activateScene _ ok => ok
  | _ => false

/-- Number of actuator commands issued in a trace. -/
def activationCount (l : List Effect) : ℕ := l.countP isActivation

/-- Number of actuator commands in a trace that succeeded. -/
def okActivationCount (l : List Effect) : ℕ := l.countP isOkActivation

/-- The clamp at climate.py line 260:
`max(self._attr_min_temp, min(self._attr_max_temp, x))`. -/
def clampTemp (cfg : HeaterConfig) (t : ℚ) : ℚ :=
  max cfg.min_temp (min cfg.max_temp t)

/-!
## `async_set_hvac_mode` (climate.py lines 153-216)

Inputs beyond the runtime state: `now` (the `datetime.now` read at entry),
`power` (the `current_power_usage` read, `none` when the sensor is missing,
unavailable or non-numeric), and `sceneOk` (the outcome the actuator
gateway would report for a toggle activation).
-/

/-- Embedding of `async_set_hvac_mode`.  Returns the new runtime state and
the effect trace. -/
def async_set_hvac_mode (cfg : HeaterConfig) (s : HeaterState) (now : ℚ)
    (power : Option ℚ) (sceneOk : Bool) (requested : ReqMode) :
    HeaterState × List Effect :=
  if reqMatches requested s.hvac_mode then (s, [])
  else
    match requested with
    | ReqMode.heat =>
      let cooldown : List Effect :=
        match s.last_mode_change_time with
        | some l => if now - 10 < l then [Effect.sleepSeconds 10] else []
        | none => []
      let sensorLow : Bool :=
        match power with
        | none => true
        | some p => decide (p < VOLTAGE_ON_THRESHOLD)
      let toggle : List Effect :=
        if cfg.powerSensorConfigured && sensorLow then
          Effect.activateScene cfg.scene_turn_on_off sceneOk ::
            (if sceneOk then [Effect.sleepSeconds SCENE_ACTIVATION_DELAY] else [])
        else if !cfg.powerSensorConfigured then
          Effect.activateScene cfg.scene_turn_on_off sceneOk ::
            (if sceneOk then [Effect.sleepSeconds SCENE_ACTIVATION_DELAY] else [])
        else []
      ({ hvac_mode := HVACMode.heat,
         target_temperature := s.target_temperature,
         heat_start_time := some now,
         last_mode_change_time := some now },
       Effect.stopMonitoring :: cooldown ++ toggle ++
         [Effect.startMonitoring, Effect.writeHaState])
    | ReqMode.off =>
      ({ hvac_mode := HVACMode.off,
         target_temperature := s.target_temperature,
         heat_start_time := none,
         last_mode_change_time := some now },
       [Effect.stopMonitoring,
        Effect.activateScene cfg.scene_turn_on_off sceneOk,
        Effect.writeHaState])
    | ReqMode.other => (s, [Effect.stopMonitoring])

/-!
## `async_set_temperature` (climate.py lines 218-274)

`outcomes i` is the success flag the actuator gateway reports for the
`i`-th step activation (0-indexed).
-/

/-- The stepping loop of `async_set_temperature` (lines 247-254): run up to
`n` step activations starting at step index `i`; stop at the first failure.
Returns `success_count` and the effect trace. -/
def runTempSteps (scene : ℕ) (outcomes : ℕ → Bool) : ℕ → ℕ → ℕ × List Effect
  | 0, _ => (0, [])
  | n + 1, i =>
    if outcomes i then
      let r := runTempSteps scene outcomes n (i + 1)
      (r.1 + 1,
       Effect.activateScene scene true :: Effect.sleepSeconds (3 / 2) :: r.2)
    else
      (0, [Effect.activateScene scene false])

/-- Embedding of `async_set_temperature`. -/
def async_set_temperature (cfg : HeaterConfig) (s : HeaterState)
    (requested : ℚ) (outcomes : ℕ → Bool) : HeaterState × List Effect :=
  if !(decide (cfg.min_temp ≤ requested) && decide (requested ≤ cfg.max_temp)) then
    (s, [])
  else
    let current := s.target_temperature
    let difference := pyRound (requested - current)
    if difference = 0 then
      if s.target_temperature ≠ requested then
        ({ s with target_temperature := requested }, [Effect.writeHaState])
      else (s, [])
    else
      let scene :=
        if difference > 0 then cfg.temperature_up_scene
        else cfg.temperature_down_scene
      let steps := difference.natAbs
      let r := runTempSteps scene outcomes steps 0
      let successCount := r.1
      let dir : ℚ := if difference > 0 then 1 else -1
      let newCalc := clampTemp cfg (current + (successCount : ℚ) * dir)
      let newTarget := if successCount = steps then requested else newCalc
      ({ s with target_temperature := newTarget }, r.2 ++ [Effect.writeHaState])

/-!
## `_async_power_sensor_changed` (climate.py lines 422-464)

The incoming event's new sensor state is either missing/unavailable,
present but non-numeric, or a numeric value.
-/

/-- The power sensor state carried by a change event. -/
inductive SensorReading where
  | missing : SensorReading
  | nonNumeric : SensorReading
  | value : ℚ → SensorReading
deriving DecidableEq, Repr

/-- Embedding of `_async_power_sensor_changed`.  `now` is the
`datetime.now` read used for the cooldown check; `now2` the second
`datetime.now` read (`current_time`) used when setting timestamps. -/
def powerSensorChanged (s : HeaterState) (now now2 : ℚ)
    (reading : SensorReading) : HeaterState × List Effect :=
  match reading with
  | SensorReading.missing => (s, [])
  | SensorReading.nonNumeric =>
    if s.hvac_mode ≠ HVACMode.off then (s, [])
    else if (match s.last_mode_change_time with
             | some l => decide (now - l < AUTO_ON_COOLDOWN_SECONDS)
             | none => false) then (s, [])
    else (s, [])
  | SensorReading.value p =>
    if s.hvac_mode ≠ HVACMode.off then (s, [])
    else if (match s.last_mode_change_time with
             | some l => decide (now - l < AUTO_ON_COOLDOWN_SECONDS)
             | none => false) then (s, [])
    else if VOLTAGE_ON_THRESHOLD < p then
      ({ hvac_mode := HVACMode.heat,
         target_temperature := s.target_temperature,
         heat_start_time :=
           match s.heat_start_time with
           | none => some now2
           | some t => some t,
         last_mode_change_time := some now2 },
       [Effect.writeHaState, Effect.startMonitoring])
    else (s, [])

/-!
## `_monitor_power_and_temperature` (climate.py lines 306-418)

One loop cycle reads the clock and several sensors and may issue scene
activations; all those external inputs are collected in a `CycleEnv`.
The loop itself is embedded with explicit fuel (number of remaining
cycles we are willing to unfold), with a per-cycle environment.
-/

/-- External inputs consumed by one cycle of the monitoring loop. -/
structure CycleEnv where
  /-- `datetime.now` at the top of the cycle. -/
  now : ℚ
  /-- outcome of the first timer-expiry OFF toggle. -/
  offOk1 : Bool
  /-- `current_power_usage` read after the 60 s wait (`none` when the
  sensor is missing, unavailable or non-numeric). -/
  powerAfterDelay : Option ℚ
  /-- outcome of the second timer-expiry OFF toggle, if issued. -/
  offOk2 : Bool
  /-- `datetime.now` read when recording `last_mode_change_time` at the
  end of the timer-expiry sequence. -/
  nowAfter : ℚ
  /-- `current_temperature` read in the maintenance branch. -/
  currentTemp : Option ℚ
  /-- `current_power_usage` read in the maintenance branch. -/
  powerMaint : Option ℚ
  /-- outcome of the first maintenance step activation. -/
  maintOk1 : Bool
  /-- outcome of the second maintenance step activation, if issued. -/
  maintOk2 : Bool
deriving DecidableEq, Repr

/-- Loop-control outcome of one cycle: `brk` leaves the loop, and
`sleepContinue` proceeds to the next cycle after the interval sleep. -/
inductive LoopControl where
  | brk : LoopControl
  | sleepContinue : LoopControl
deriving DecidableEq, Repr

/-- The timer check at climate.py lines 318-323:
`timer_duration_minutes > 0 and self._heat_start_time` and
`elapsed_seconds >= timer_duration_seconds`. -/
def timerExpiredCheck (timer_minutes : ℕ) (heat_start : Option ℚ)
    (now : ℚ) : Bool :=
  if timer_minutes = 0 then false
  else
    match heat_start with
    | some t => decide ((timer_minutes : ℚ) * 60 ≤ now - t)
    | none => false

/-- The verification condition at climate.py line 342:
`self._power_usage_sensor and power_after_delay is not None and
power_after_delay >= VOLTAGE_ON_THRESHOLD`. -/
def timerSecondToggleCheck (sensorConfigured : Bool)
    (powerAfterDelay : Option ℚ) : Bool :=
  sensorConfigured &&
    (match powerAfterDelay with
     | some p => decide (VOLTAGE_ON_THRESHOLD ≤ p)
     | none => false)

/-- The temperature-maintenance branch (climate.py lines 367-401):
effects only, since it never mutates the runtime state. -/
def maintEffects (cfg : HeaterConfig) (target : ℚ) (env : CycleEnv) :
    List Effect :=
  match env.currentTemp with
  | none => []
  | some ct =>
    let difference := ct - target
    if cfg.powerSensorConfigured then
      match env.powerMaint with
      | some p =>
        if difference < -1 ∧ p ≤ VOLTAGE_ON_THRESHOLD then
          Effect.activateScene cfg.temperature_up_scene env.maintOk1 ::
            (if env.maintOk1 then
               [Effect.sleepSeconds SCENE_ACTIVATION_DELAY,
                Effect.activateScene cfg.temperature_up_scene env.maintOk2]
             else [])
        else if 1 < difference ∧ VOLTAGE_ON_THRESHOLD ≤ p then
          Effect.activateScene cfg.temperature_down_scene env.maintOk1 ::
            (if env.maintOk1 then
               [Effect.sleepSeconds SCENE_ACTIVATION_DELAY,
                Effect.activateScene cfg.temperature_down_scene env.maintOk2]
             else [])
        else []
      | none => []
    else []

/-- One cycle of `_monitor_power_and_temperature`: the top-of-loop mode
check, the timer check with its expiry sequence (lines 317-364), the
maintenance branch, and the interval sleep. -/
def monitorCycle (cfg : HeaterConfig) (s : HeaterState) (env : CycleEnv) :
    HeaterState × List Effect × LoopControl :=
  if s.hvac_mode ≠ HVACMode.heat then (s, [], LoopControl.brk)
  else if timerExpiredCheck cfg.timer_minutes s.heat_start_time env.now then
    ({ hvac_mode := HVACMode.off,
       target_temperature := s.target_temperature,
       heat_start_time := none,
       last_mode_change_time := some env.nowAfter },
     Effect.activateScene cfg.scene_turn_on_off env.offOk1 ::
       Effect.sleepSeconds Sleep_After_Power_Off ::
       (if timerSecondToggleCheck cfg.powerSensorConfigured env.powerAfterDelay
        then [Effect.activateScene cfg.scene_turn_on_off env.offOk2]
        else []) ++ [Effect.writeHaState],
     LoopControl.brk)
  else
    (s,
     maintEffects cfg s.target_temperature env ++
       [Effect.sleepSeconds MONITORING_INTERVAL_SECONDS],
     LoopControl.sleepContinue)

/-- The monitoring loop with fuel: runs `monitorCycle` with the `i`-th
environment, stops on `brk`, recurses (with one less fuel) on
`sleepContinue`. -/
def monitorLoop (cfg : HeaterConfig) (env : ℕ → CycleEnv) :
    ℕ → ℕ → HeaterState → HeaterState × List Effect
  | 0, _, s => (s, [])
  | n + 1, i, s =>
    let r := monitorCycle cfg s (env i)
    match r.2.2 with
    | LoopControl.brk => (r.1, r.2.1)
    | LoopControl.sleepContinue =>
      let rest := monitorLoop cfg env n (i + 1) r.1
      (rest.1, r.2.1 ++ rest.2)

/-!
## Initialization, restoration and configuration validation
-/

/-- The initial runtime state built in `MyHeaterClimate.__init__`
(climate.py lines 91-98): mode OFF, target seeded from `default_temp`,
no timer bookkeeping. -/
def initState (cfg : HeaterConfig) : HeaterState :=
  { hvac_mode := HVACMode.off,
    target_temperature := cfg.default_temp,
    heat_start_time := none,
    last_mode_change_time := none }

/-- Target-temperature restoration in `async_added_to_hass`
(climate.py lines 511-531): a restored value is honoured only when it is
numeric and within `[min_temp, max_temp]`; otherwise the default is used.
`none` covers both a missing attribute and a non-numeric one. -/
def restoreTarget (cfg : HeaterConfig) (restored : Option ℚ) : ℚ :=
  match restored with
  | some t =>
    if cfg.min_temp ≤ t ∧ t ≤ cfg.max_temp then t else cfg.default_temp
  | none => cfg.default_temp

/-- The initial-setup validation of `config_flow.async_step_user`
(config_flow.py lines 95-106): the entry is created unless
`min_temp >= max_temp`; `default_temp` is not constrained. -/
def async_step_user_accepts (min_temp max_temp default_temp : ℚ) : Bool :=
  !decide (max_temp ≤ min_temp)

/-!
## Task-lifecycle transition system (for the single-loop invariant)

All operations run on one cooperative event loop.  We model the states of
the monitoring-task lifecycle by the number of live (created and not yet
finished) monitoring loops, and the operations that touch it:

* `_stop_monitoring_task` (climate.py lines 286-302) cancels and awaits
  any live loop, leaving none alive; `async_set_hvac_mode` calls it
  before dispatching on the requested mode (line 165);
* `_start_monitoring_task` (lines 278-284) creates a task only when the
  stored handle is absent or done, i.e. only when no loop is live;
* a running loop terminates itself (timer expiry, or mode no longer
  HEAT), decrementing the live count.
-/

/-- Abstract system state: current mode and number of live monitoring
loops. -/
structure SysState where
  mode : HVACMode
  liveLoops : ℕ
deriving DecidableEq, Repr

/-- `_start_monitoring_task`: create a loop only when none is live
(the handle is `None` or the task is done). -/
def startMonitoringOp (s : SysState) : SysState :=
  if s.liveLoops = 0 then { s with liveLoops := 1 } else s

/-- Operations that affect the task lifecycle: a `set_mode` request, a
power-sensor auto-on event carrying reading `p`, and self-termination of
a running loop. -/
inductive SysOp where
  | setMode : ReqMode → SysOp
  | powerEvent : ℚ → SysOp
  | loopExit : SysOp
deriving DecidableEq, Repr

/-- One step of the task-lifecycle system, mirroring the source:
`set_mode` is a no-op on a matching mode, otherwise cancels-and-awaits
the loop before dispatching (so no loop is live when it proceeds), and
only the HEAT branch starts a loop; the power event starts a loop only
from OFF with the reading above threshold (cooldown and sensor
availability can only suppress it further); `loopExit` removes a live
loop. -/
def sysStep : SysState → SysOp → SysState
  | s, SysOp.setMode r =>
    if reqMatches r s.mode then s
    else
      let s1 : SysState := { s with liveLoops := 0 }
      match r with
      | ReqMode.heat => startMonitoringOp { s1 with mode := HVACMode.heat }
      | ReqMode.off => { s1 with mode := HVACMode.off }
      | ReqMode.other => s1
  | s, SysOp.powerEvent p =>
    if s.mode = HVACMode.off ∧ VOLTAGE_ON_THRESHOLD < p then
      startMonitoringOp { s with mode := HVACMode.heat }
    else s
  | s, SysOp.loopExit => { s with liveLoops := s.liveLoops - 1 }

/-- Run a sequence of lifecycle operations. -/
def sysRun (s : SysState) : List SysOp → SysState
  | [] => s
  | op :: ops => sysRun (sysStep s op) ops

/-- The lifecycle state at entity construction: mode OFF, no loop. -/
def sysInit : SysState := { mode := HVACMode.off, liveLoops := 0 }

/-!
## Concrete instances used by witnesses and counterexamples
-/

/-- A concrete configuration: toggle scene 1, up scene 2, down scene 3,
power sensor configured, temperatures 16-30 with default 20, 30-minute
timer. -/
def cfgW : HeaterConfig :=
  { scene_turn_on_off := 1, temperature_up_scene := 2, temperature_down_scene := 3,
    powerSensorConfigured := true, min_temp := 16, max_temp := 30,
    default_temp := 20, timer_minutes := 30 }

/-- A concrete configuration with no power sensor. -/
def cfgNoSensorW : HeaterConfig :=
  { scene_turn_on_off := 1, temperature_up_scene := 2, temperature_down_scene := 3,
    powerSensorConfigured := false, min_temp := 16, max_temp := 30,
    default_temp := 20, timer_minutes := 30 }

/-- A concrete configuration whose `default_temp` lies outside
`[min_temp, max_temp]` but which passes the setup validation. -/
def cfgBadDefaultW : HeaterConfig :=
  { scene_turn_on_off := 1, temperature_up_scene := 2, temperature_down_scene := 3,
    powerSensorConfigured := true, min_temp := 25, max_temp := 30,
    default_temp := 20, timer_minutes := 30 }

/-- A concrete OFF runtime state with target 20 and a mode change at
time 0. -/
def sOffW : HeaterState :=
  { hvac_mode := HVACMode.off, target_temperature := 20,
    heat_start_time := none, last_mode_change_time := some 0 }

/-- A concrete HEAT runtime state: heating since time 0, target 20. -/
def sHeatW : HeaterState :=
  { hvac_mode := HVACMode.heat, target_temperature := 20,
    heat_start_time := some 0, last_mode_change_time := some 0 }

/-- A concrete cycle environment: cycle observed at time 1800 s, power
still reading 50 after the post-off wait, sequence finishing at 1900 s. -/
def envW : ℕ → CycleEnv := fun _ =>
  { now := 1800, offOk1 := true, powerAfterDelay := some 50, offOk2 := true,
    nowAfter := 1900, currentTemp := none, powerMaint := none,
    maintOk1 := true, maintOk2 := true }

/-- The in-range predicate for a target temperature. -/
def inRange (cfg : HeaterConfig) (t : ℚ) : Prop :=
  cfg.min_temp ≤ t ∧ t ≤ cfg.max_temp

/-!
## Helper lemmas
-/

theorem clampTemp_mem (cfg : HeaterConfig) (hmm : cfg.min_temp ≤ cfg.max_temp)
    (x : ℚ) : cfg.min_temp ≤ clampTemp cfg x ∧ clampTemp cfg x ≤ cfg.max_temp :=
  ⟨le_max_left _ _, max_le hmm (min_le_left _ _)⟩

theorem pyRound_zero : pyRound 0 = 0 := by
  norm_num [pyRound]

theorem runTempSteps_all_ok (scene : ℕ) (outcomes : ℕ → Bool)
    (h : ∀ j, outcomes j = true) :
    ∀ n i, (runTempSteps scene outcomes n i).1 = n := by
  intro n
  induction n with
  | zero => intro i; rfl
  | succ n ih => intro i; simp [runTempSteps, h i, ih]

/-- The effect trace of `m` consecutive successful temperature steps. -/
def okBlock (scene : ℕ) : ℕ → List Effect
  | 0 => []
  | m + 1 =>
    Effect.activateScene scene true :: Effect.sleepSeconds (3 / 2) :: okBlock scene m

theorem runTempSteps_fail (scene : ℕ) (outcomes : ℕ → Bool) :
    ∀ m n i, m < n → (∀ j, j < m → outcomes (i + j) = true) →
      outcomes (i + m) = false →
      runTempSteps scene outcomes n i =
        (m, okBlock scene m ++ [Effect.activateScene scene false]) := by
  intro m
  induction m with
  | zero =>
    intro n i hn _ hfail
    match n, hn with
    | Nat.succ n, _ =>
      have h0 : outcomes i = false := by simpa using hfail
      simp [runTempSteps, h0, okBlock]
  | succ m ih =>
    intro n i hn hok hfail
    match n, hn with
    | Nat.succ n, hn =>
      have h0 : outcomes i = true := by simpa using hok 0 (Nat.succ_pos m)
      have hok1 : ∀ j, j < m → outcomes (i + 1 + j) = true := by
        intro j hj
        rw [show i + 1 + j = i + (j + 1) from by omega]
        exact hok (j + 1) (by omega)
      have hfail1 : outcomes (i + 1 + m) = false := by
        rw [show i + 1 + m = i + (m + 1) from by omega]
        exact hfail
      have hrec := ih n (i + 1) (by omega) hok1 hfail1
      simp [runTempSteps, h0, hrec, okBlock]

theorem activationCount_okBlock (scene : ℕ) (m : ℕ) :
    activationCount (okBlock scene m) = m := by
  induction m with
  | zero => rfl
  | succ m ih =>
    simp only [okBlock, activationCount, List.countP_cons] at ih ⊢
    simp [isActivation, ih]

theorem okActivationCount_okBlock (scene : ℕ) (m : ℕ) :
    okActivationCount (okBlock scene m) = m := by
  induction m with
  | zero => rfl
  | succ m ih =>
    simp only [okBlock, okActivationCount, List.countP_cons] at ih ⊢
    simp [isOkActivation, ih]

/-- The stepping branch of `async_set_temperature` (difference nonzero),
factored out for reuse in proofs. -/
theorem async_set_temperature_step_eq (cfg : HeaterConfig) (s : HeaterState)
    (requested : ℚ) (outcomes : ℕ → Bool)
    (hlo : cfg.min_temp ≤ requested) (hhi : requested ≤ cfg.max_temp)
    (hd : pyRound (requested - s.target_temperature) ≠ 0) :
    async_set_temperature cfg s requested outcomes =
      ({ s with target_temperature :=
           if (runTempSteps
                 (if 0 < pyRound (requested - s.target_temperature)
                  then cfg.temperature_up_scene else cfg.temperature_down_scene)
                 outcomes (pyRound (requested - s.target_temperature)).natAbs 0).1 =
              (pyRound (requested - s.target_temperature)).natAbs
           then requested
           else clampTemp cfg (s.target_temperature +
             ((runTempSteps
                 (if 0 < pyRound (requested - s.target_temperature)
                  then cfg.temperature_up_scene else cfg.temperature_down_scene)
                 outcomes (pyRound (requested - s.target_temperature)).natAbs 0).1 : ℚ) *
             (if 0 < pyRound (requested - s.target_temperature) then 1 else -1)) },
       (runTempSteps
          (if 0 < pyRound (requested - s.target_temperature)
           then cfg.temperature_up_scene else cfg.temperature_down_scene)
          outcomes (pyRound (requested - s.target_temperature)).natAbs 0).2 ++
         [Effect.writeHaState]) := by
  simp [async_set_temperature, hlo, hhi, hd]

theorem sysStep_liveLoops_le {s : SysState} (op : SysOp) (h : s.liveLoops ≤ 1) :
    (sysStep s op).liveLoops ≤ 1 := by
  cases op with
  | setMode r =>
    simp only [sysStep]
    split
    · exact h
    · cases r
      · simp
      · simp [startMonitoringOp]
      · simp
  | powerEvent p =>
    simp only [sysStep]
    split
    · simp only [startMonitoringOp]
      split
      · simp
      · exact h
    · exact h
  | loopExit =>
    simp only [sysStep]
    omega

theorem sysRun_liveLoops_le (ops : List SysOp) :
    ∀ s : SysState, s.liveLoops ≤ 1 → (sysRun s ops).liveLoops ≤ 1 := by
  induction ops with
  | nil => intro s h; exact h
  | cons op ops ih => intro s h; exact ih _ (sysStep_liveLoops_le op h)

/-!
## Claims
-/

/-- Claim C4: at most one reconciliation-loop task is live per heater at
any time: in every state reachable by any sequence of set_mode calls,
power-event auto-on triggers and loop self-terminations, at most one
monitoring loop is live, because set_mode cancels and awaits any running
loop before mutating state and the start operation creates a task only
when none is live. -/
theorem C4_at_most_one_monitoring_loop (ops : List SysOp) :
    (sysRun sysInit ops).liveLoops ≤ 1 :=
  sysRun_liveLoops_le ops sysInit (Nat.zero_le 1)

/-- Claim C9 (counterexample): a `set_mode` call requesting the mode that
is already active returns early and does not publish state, refuting the
claim that every `set_mode` call ends by publishing the entity state. -/
theorem C9_counterexample :
    Effect.writeHaState ∉ (async_set_hvac_mode cfgW sOffW 0 none true ReqMode.off).2 := by
  simp [async_set_hvac_mode, reqMatches, sOffW]

/-- Claim C9 (amended): `set_mode` publishes the entity state exactly
when it performs an actual transition to HEAT or OFF; a call requesting
the already-active mode and a call requesting an unsupported mode both
return early without publishing. -/
theorem C9_publish_iff_transition (cfg : HeaterConfig) (s : HeaterState)
    (now : ℚ) (power : Option ℚ) (sceneOk : Bool) (r : ReqMode) :
    Effect.writeHaState ∈ (async_set_hvac_mode cfg s now power sceneOk r).2 ↔
      (reqMatches r s.hvac_mode = false ∧ r ≠ ReqMode.other) := by
  cases r <;> cases hm : s.hvac_mode <;>
    simp [async_set_hvac_mode, reqMatches, hm]

/-- Claim C2: for every `set_mode(HEAT)` call made while the current mode
is OFF, the toggle actuator command is issued exactly when the power
inference is OFF or UNKNOWN (sensor unconfigured, reading unavailable or
below threshold) and skipped when the reading is at or above the
threshold; in every case the mode becomes HEAT, `heat_start_time` and
`last_mode_change_time` are set to now, and the monitoring loop is
started. -/
theorem C2_set_mode_heat_from_off (cfg : HeaterConfig) (s : HeaterState)
    (now : ℚ) (power : Option ℚ) (sceneOk : Bool)
    (hmode : s.hvac_mode = HVACMode.off) :
    ((cfg.powerSensorConfigured = true ∧
        ∃ p, power = some p ∧ VOLTAGE_ON_THRESHOLD ≤ p) →
      activationCount (async_set_hvac_mode cfg s now power sceneOk ReqMode.heat).2 = 0) ∧
    ((cfg.powerSensorConfigured = false ∨ power = none ∨
        ∃ p, power = some p ∧ p < VOLTAGE_ON_THRESHOLD) →
      activationCount (async_set_hvac_mode cfg s now power sceneOk ReqMode.heat).2 = 1) ∧
    (async_set_hvac_mode cfg s now power sceneOk ReqMode.heat).1 =
      { hvac_mode := HVACMode.heat, target_temperature := s.target_temperature,
        heat_start_time := some now, last_mode_change_time := some now } ∧
    Effect.startMonitoring ∈ (async_set_hvac_mode cfg s now power sceneOk ReqMode.heat).2 := by
  refine ⟨?_, ?_, ?_, ?_⟩
  · rintro ⟨hc, p, rfl, hp⟩
    have hnp : ¬ p < VOLTAGE_ON_THRESHOLD := not_lt.mpr hp
    rcases hlm : s.last_mode_change_time with _ | l <;>
      simp [async_set_hvac_mode, reqMatches, hmode, hlm, hc, hnp, activationCount,
        isActivation, List.countP_cons, List.countP_append]
  · rintro (hc | hc | ⟨p, rfl, hp⟩) <;>
    · cases hcs : cfg.powerSensorConfigured <;>
        rcases hlm : s.last_mode_change_time with _ | l <;>
        cases sceneOk <;>
        simp_all [async_set_hvac_mode, reqMatches, hmode, activationCount,
          isActivation, List.countP_cons, List.countP_append]
  · simp [async_set_hvac_mode, reqMatches, hmode]
  · simp [async_set_hvac_mode, reqMatches, hmode]

/-- Witness for C2 at a concrete input: power sensor configured, reading 5
(below threshold 10): exactly one toggle command is issued. -/
theorem C2_witness :
    activationCount (async_set_hvac_mode cfgW sOffW 100 (some 5) true ReqMode.heat).2 = 1 :=
  (C2_set_mode_heat_from_off cfgW sOffW 100 (some 5) true rfl).2.1
    (Or.inr (Or.inr ⟨5, rfl, by norm_num [VOLTAGE_ON_THRESHOLD]⟩))

/-- Claim C3: a power-sensor change event carrying a numeric reading above
the threshold, received while the mode is OFF and more than 15 seconds
after the last mode change, transitions the mode to HEAT with no actuator
command, sets `heat_start_time` and `last_mode_change_time`, publishes
state and starts the monitoring loop; the same event within the
15-second cooldown causes no state change. -/
theorem C3_power_event_auto_on (s : HeaterState) (now now2 p l : ℚ)
    (hmode : s.hvac_mode = HVACMode.off)
    (hhs : s.heat_start_time = none)
    (hl : s.last_mode_change_time = some l)
    (hp : VOLTAGE_ON_THRESHOLD < p) :
    (AUTO_ON_COOLDOWN_SECONDS < now - l →
      powerSensorChanged s now now2 (SensorReading.value p) =
        ({ hvac_mode := HVACMode.heat, target_temperature := s.target_temperature,
           heat_start_time := some now2, last_mode_change_time := some now2 },
         [Effect.writeHaState, Effect.startMonitoring])) ∧
    (now - l < AUTO_ON_COOLDOWN_SECONDS →
      powerSensorChanged s now now2 (SensorReading.value p) = (s, [])) := by
  constructor
  · intro h
    have hc : ¬ (now - l < AUTO_ON_COOLDOWN_SECONDS) := not_lt.mpr (le_of_lt h)
    simp [powerSensorChanged, hmode, hl, hc, hp, hhs]
  · intro h
    simp [powerSensorChanged, hmode, hl, h]

/-- Witness for C3 at a concrete input: mode OFF since time 0, event at
time 100 with reading 50: the transition to HEAT occurs with no actuator
command. -/
theorem C3_witness :
    powerSensorChanged sOffW 100 101 (SensorReading.value 50) =
      ({ hvac_mode := HVACMode.heat, target_temperature := sOffW.target_temperature,
         heat_start_time := some 101, last_mode_change_time := some 101 },
       [Effect.writeHaState, Effect.startMonitoring]) :=
  (C3_power_event_auto_on sOffW 100 101 50 0 rfl rfl rfl
      (by norm_num [VOLTAGE_ON_THRESHOLD])).1
    (by norm_num [AUTO_ON_COOLDOWN_SECONDS])

/-- Claim C5: if the k-th of the required actuator step commands fails,
exactly k-1 steps are counted as succeeded, no actuator command beyond
the k-th is issued, and the target temperature becomes the prior target
plus k-1 degrees in the requested direction, clamped to the configured
bounds. -/
theorem C5_partial_step_failure (cfg : HeaterConfig) (s : HeaterState)
    (requested : ℚ) (outcomes : ℕ → Bool) (k : ℕ)
    (hlo : cfg.min_temp ≤ requested) (hhi : requested ≤ cfg.max_temp)
    (hk1 : 1 ≤ k)
    (hkn : k ≤ (pyRound (requested - s.target_temperature)).natAbs)
    (hok : ∀ j, j < k - 1 → outcomes j = true)
    (hfail : outcomes (k - 1) = false) :
    okActivationCount (async_set_temperature cfg s requested outcomes).2 = k - 1 ∧
    activationCount (async_set_temperature cfg s requested outcomes).2 = k ∧
    (async_set_temperature cfg s requested outcomes).1.target_temperature =
      clampTemp cfg (s.target_temperature + ((k - 1 : ℕ) : ℚ) *
        (if 0 < pyRound (requested - s.target_temperature) then 1 else -1)) := by
  have hd : pyRound (requested - s.target_temperature) ≠ 0 := by
    intro h0
    rw [h0] at hkn
    simp at hkn
    omega
  rw [async_set_temperature_step_eq cfg s requested outcomes hlo hhi hd]
  have hrun := runTempSteps_fail
    (if 0 < pyRound (requested - s.target_temperature)
     then cfg.temperature_up_scene else cfg.temperature_down_scene)
    outcomes (k - 1) (pyRound (requested - s.target_temperature)).natAbs 0
    (by omega) (by intro j hj; simpa using hok j hj) (by simpa using hfail)
  rw [hrun]
  have hne : ¬ (k - 1 = (pyRound (requested - s.target_temperature)).natAbs) := by omega
  refine ⟨?_, ?_, ?_⟩
  · simp [okActivationCount, List.countP_append, List.countP_cons, isOkActivation,
      okActivationCount_okBlock]
    have := okActivationCount_okBlock
      (if 0 < pyRound (requested - s.target_temperature)
       then cfg.temperature_up_scene else cfg.temperature_down_scene) (k - 1)
    simpa [okActivationCount] using this
  · simp [activationCount, List.countP_append, List.countP_cons, isActivation]
    have := activationCount_okBlock
      (if 0 < pyRound (requested - s.target_temperature)
       then cfg.temperature_up_scene else cfg.temperature_down_scene) (k - 1)
    simp [activationCount] at this
    omega
  · simp [hne]

/-- Witness for C5 at a concrete input: stepping from 20 to 25 (5 steps)
with the third command failing: 2 steps succeed, 3 commands are issued,
and the target becomes 22. -/
theorem C5_witness :
    okActivationCount (async_set_temperature cfgW sOffW 25 (fun j => decide (j < 2))).2 = 3 - 1 ∧
    activationCount (async_set_temperature cfgW sOffW 25 (fun j => decide (j < 2))).2 = 3 ∧
    (async_set_temperature cfgW sOffW 25 (fun j => decide (j < 2))).1.target_temperature =
      clampTemp cfgW (sOffW.target_temperature + ((3 - 1 : ℕ) : ℚ) *
        (if 0 < pyRound (25 - sOffW.target_temperature) then 1 else -1)) :=
  C5_partial_step_failure cfgW sOffW 25 (fun j => decide (j < 2)) 3
    (by norm_num [cfgW]) (by norm_num [cfgW]) (by norm_num)
    (by norm_num [pyRound, sOffW]) (by decide) (by decide)

/-- Claim C6 (counterexample): with prior target 20 and requested 21.4,
every step succeeding, the resulting target is 21.4, not the requested
value rounded to the nearest whole-degree step from the prior target
(which would be 21). -/
theorem C6_counterexample :
    (async_set_temperature cfgW sOffW (107/5) (fun _ => true)).1.target_temperature ≠
      sOffW.target_temperature +
        ((pyRound (107/5 - sOffW.target_temperature) : ℤ) : ℚ) := by
  norm_num [async_set_temperature, cfgW, sOffW, pyRound, runTempSteps]

/-- Claim C6 (amended): if every step command of a `set_temperature`
call with an in-range requested value succeeds, the resulting target
temperature equals the requested value exactly (the device is stepped by
the rounded whole-degree delta, but the stored target is the request). -/
theorem C6_all_steps_succeed (cfg : HeaterConfig) (s : HeaterState)
    (requested : ℚ) (outcomes : ℕ → Bool)
    (hlo : cfg.min_temp ≤ requested) (hhi : requested ≤ cfg.max_temp)
    (hall : ∀ j, outcomes j = true) :
    (async_set_temperature cfg s requested outcomes).1.target_temperature = requested := by
  by_cases hd : pyRound (requested - s.target_temperature) = 0
  · by_cases he : s.target_temperature = requested
    · simp [async_set_temperature, hlo, hhi, hd, he, pyRound_zero]
    · simp [async_set_temperature, hlo, hhi, hd, he]
  · rw [async_set_temperature_step_eq cfg s requested outcomes hlo hhi hd]
    simp [runTempSteps_all_ok _ _ hall]

/-- Witness for C6 (amended) at a concrete input: stepping from 20 to 25
with every command succeeding yields target 25. -/
theorem C6_witness :
    (async_set_temperature cfgW sOffW 25 (fun _ => true)).1.target_temperature = 25 :=
  C6_all_steps_succeed cfgW sOffW 25 (fun _ => true)
    (by norm_num [cfgW]) (by norm_num [cfgW]) (fun _ => rfl)

/-- Claim C7 (counterexample): with prior target 20 and in-range request
20.4, `round(requested - current) = 0`, yet the call is not a no-op: the
target temperature is overwritten with 20.4. -/
theorem C7_counterexample :
    (async_set_temperature cfgW sOffW (102/5) (fun _ => true)).1.target_temperature ≠
      sOffW.target_temperature := by
  norm_num [async_set_temperature, cfgW, sOffW, pyRound]

/-- Claim C7 (amended): for every `set_temperature` call with an in-range
requested value where `round(requested - current) = 0`, no actuator
command is issued and the target temperature is set to the requested
value (unchanged only when the request equals the current target). -/
theorem C7_round_zero_no_command (cfg : HeaterConfig) (s : HeaterState)
    (requested : ℚ) (outcomes : ℕ → Bool)
    (hlo : cfg.min_temp ≤ requested) (hhi : requested ≤ cfg.max_temp)
    (hz : pyRound (requested - s.target_temperature) = 0) :
    activationCount (async_set_temperature cfg s requested outcomes).2 = 0 ∧
    (async_set_temperature cfg s requested outcomes).1.target_temperature = requested := by
  by_cases he : s.target_temperature = requested <;>
    simp [async_set_temperature, hlo, hhi, hz, he, activationCount,
      List.countP_cons, List.countP_nil, isActivation, pyRound_zero]

/-- Witness for C7 (amended) at the concrete input 20.4 from target 20:
no actuator command, target set to 20.4. -/
theorem C7_witness :
    activationCount (async_set_temperature cfgW sOffW (102/5) (fun _ => true)).2 = 0 ∧
    (async_set_temperature cfgW sOffW (102/5) (fun _ => true)).1.target_temperature = 102/5 :=
  C7_round_zero_no_command cfgW sOffW (102/5) (fun _ => true)
    (by norm_num [cfgW]) (by norm_num [cfgW]) (by norm_num [pyRound, sOffW])

/-- Claim C8 (counterexample): the setup validation accepts
min 25, max 30, default 20 (it checks only that min < max), and the
initial state then seeds the target temperature to 20, outside
[min_temp, max_temp]. -/
theorem C8_counterexample :
    async_step_user_accepts cfgBadDefaultW.min_temp cfgBadDefaultW.max_temp
        cfgBadDefaultW.default_temp = true ∧
    ¬ inRange cfgBadDefaultW (initState cfgBadDefaultW).target_temperature := by
  constructor
  · norm_num [async_step_user_accepts, cfgBadDefaultW]
  · norm_num [inRange, initState, cfgBadDefaultW]

/-- Claim C8 (amended): the target temperature is within
[min_temp, max_temp] after every `set_temperature` call with an in-range
request and after state restoration, and at initialization, provided the
configured `default_temp` itself lies within the bounds; the setup
validation does not enforce this (it checks only min < max). -/
theorem C8_target_in_range (cfg : HeaterConfig) (s : HeaterState)
    (requested : ℚ) (outcomes : ℕ → Bool) (restored : Option ℚ)
    (hdlo : cfg.min_temp ≤ cfg.default_temp)
    (hdhi : cfg.default_temp ≤ cfg.max_temp)
    (hlo : cfg.min_temp ≤ requested) (hhi : requested ≤ cfg.max_temp) :
    inRange cfg (initState cfg).target_temperature ∧
    inRange cfg (restoreTarget cfg restored) ∧
    inRange cfg (async_set_temperature cfg s requested outcomes).1.target_temperature := by
  have hmm : cfg.min_temp ≤ cfg.max_temp := le_trans hdlo hdhi
  refine ⟨⟨hdlo, hdhi⟩, ?_, ?_⟩
  · cases restored with
    | none => exact ⟨hdlo, hdhi⟩
    | some t =>
      simp only [restoreTarget, inRange]
      split
      · next h => exact h
      · exact ⟨hdlo, hdhi⟩
  · by_cases hd : pyRound (requested - s.target_temperature) = 0
    · by_cases he : s.target_temperature = requested <;>
        simp [async_set_temperature, hlo, hhi, hd, he, inRange, pyRound_zero]
    · rw [async_set_temperature_step_eq cfg s requested outcomes hlo hhi hd]
      by_cases hs :
          (runTempSteps
            (if 0 < pyRound (requested - s.target_temperature)
             then cfg.temperature_up_scene else cfg.temperature_down_scene)
            outcomes (pyRound (requested - s.target_temperature)).natAbs 0).1 =
          (pyRound (requested - s.target_temperature)).natAbs
      · simpa [inRange, hs] using ⟨hlo, hhi⟩
      · simpa [inRange, hs] using clampTemp_mem cfg hmm
          (s.target_temperature +
            ((runTempSteps
               (if 0 < pyRound (requested - s.target_temperature)
                then cfg.temperature_up_scene else cfg.temperature_down_scene)
               outcomes (pyRound (requested - s.target_temperature)).natAbs 0).1 : ℚ) *
            (if 0 < pyRound (requested - s.target_temperature) then 1 else -1))

/-- Witness for C8 (amended) at a concrete input: config 16-30 with
default 20, restoring 22, then requesting 25. -/
theorem C8_witness :
    inRange cfgW (initState cfgW).target_temperature ∧
    inRange cfgW (restoreTarget cfgW (some 22)) ∧
    inRange cfgW (async_set_temperature cfgW sOffW 25 (fun _ => true)).1.target_temperature :=
  C8_target_in_range cfgW sOffW 25 (fun _ => true) (some 22)
    (by norm_num [cfgW]) (by norm_num [cfgW]) (by norm_num [cfgW]) (by norm_num [cfgW])

/-- Claim C1: when the monitoring loop observes, in HEAT mode, that the
timer is positive and the elapsed time since `heat_start_time` reached the
timer duration, it issues the off-toggle once, waits 60 seconds, issues a
second off-toggle exactly when a configured power sensor reads at or
above the threshold, and then, regardless of the verification outcome,
sets the mode to OFF, clears `heat_start_time`, updates
`last_mode_change_time`, publishes state and terminates the loop with no
further cycles. -/
theorem C1_timer_expiry_sequence (cfg : HeaterConfig) (s : HeaterState)
    (env : ℕ → CycleEnv) (n : ℕ) (t : ℚ)
    (hmode : s.hvac_mode = HVACMode.heat)
    (htimer : 0 < cfg.timer_minutes)
    (hstart : s.heat_start_time = some t)
    (helapsed : (cfg.timer_minutes : ℚ) * 60 ≤ (env 0).now - t) :
    monitorLoop cfg env (n + 1) 0 s =
      ({ hvac_mode := HVACMode.off, target_temperature := s.target_temperature,
         heat_start_time := none, last_mode_change_time := some (env 0).nowAfter },
       Effect.activateScene cfg.scene_turn_on_off (env 0).offOk1 ::
         Effect.sleepSeconds Sleep_After_Power_Off ::
         (if timerSecondToggleCheck cfg.powerSensorConfigured (env 0).powerAfterDelay
          then [Effect.activateScene cfg.scene_turn_on_off (env 0).offOk2]
          else []) ++ [Effect.writeHaState]) := by
  have hnz : cfg.timer_minutes ≠ 0 := by omega
  have hexp : timerExpiredCheck cfg.timer_minutes s.heat_start_time (env 0).now = true := by
    simp [timerExpiredCheck, hnz, hstart, helapsed]
  simp [monitorLoop, monitorCycle, hmode, hexp]

/-- Witness for C1 at a concrete input: 30-minute timer, heating since
time 0, cycle observed at 1800 s with the power sensor still reading 50
after the wait: both toggles are issued and the loop ends OFF. -/
theorem C1_witness :
    monitorLoop cfgW envW 1 0 sHeatW =
      ({ hvac_mode := HVACMode.off, target_temperature := sHeatW.target_temperature,
         heat_start_time := none, last_mode_change_time := some (envW 0).nowAfter },
       Effect.activateScene cfgW.scene_turn_on_off (envW 0).offOk1 ::
         Effect.sleepSeconds Sleep_After_Power_Off ::
         (if timerSecondToggleCheck cfgW.powerSensorConfigured (envW 0).powerAfterDelay
          then [Effect.activateScene cfgW.scene_turn_on_off (envW 0).offOk2]
          else []) ++ [Effect.writeHaState]) :=
  C1_timer_expiry_sequence cfgW sHeatW envW 0 0 rfl (by norm_num [cfgW]) rfl
    (by norm_num [cfgW, envW])

/-- Claim C10 (counterexample): a reading exactly equal to the threshold
(10) is classified ON by the `set_mode(HEAT)` toggle decision (the toggle
is skipped) and by the timer-expiry verification (the second toggle is
issued), but not by the power-event auto-on handler (no transition),
refuting the claim that classification is identical at all three
decision points. -/
theorem C10_counterexample :
    activationCount (async_set_hvac_mode cfgW sOffW 100 (some 10) true ReqMode.heat).2 = 0 ∧
    timerSecondToggleCheck cfgW.powerSensorConfigured (some 10) = true ∧
    powerSensorChanged sOffW 100 101 (SensorReading.value 10) = (sOffW, []) := by
  refine ⟨?_, ?_, ?_⟩
  · norm_num [async_set_hvac_mode, cfgW, sOffW, reqMatches, VOLTAGE_ON_THRESHOLD,
      activationCount, isActivation, List.countP, List.countP.go]
  · norm_num [timerSecondToggleCheck, cfgW, VOLTAGE_ON_THRESHOLD]
  · norm_num [powerSensorChanged, sOffW, VOLTAGE_ON_THRESHOLD, AUTO_ON_COOLDOWN_SECONDS]

/-- Claim C10 (amended): the `set_mode(HEAT)` toggle decision and the
timer-expiry verification both classify a reading as ON exactly when it
is at or above the threshold; the power-event auto-on handler instead
requires the reading to be strictly above the threshold, so a reading
exactly equal to the threshold is ON at the first two decision points
but not in the handler. -/
theorem C10_threshold_classification (cfg : HeaterConfig) (s : HeaterState)
    (now now2 : ℚ) (p : ℚ) (sceneOk : Bool)
    (hconf : cfg.powerSensorConfigured = true)
    (hmode : s.hvac_mode = HVACMode.off)
    (hl : s.last_mode_change_time = none) :
    (activationCount (async_set_hvac_mode cfg s now (some p) sceneOk ReqMode.heat).2 = 0 ↔
      VOLTAGE_ON_THRESHOLD ≤ p) ∧
    (timerSecondToggleCheck cfg.powerSensorConfigured (some p) = true ↔
      VOLTAGE_ON_THRESHOLD ≤ p) ∧
    ((powerSensorChanged s now now2 (SensorReading.value p)).1.hvac_mode = HVACMode.heat ↔
      VOLTAGE_ON_THRESHOLD < p) := by
  refine ⟨?_, ?_, ?_⟩
  · cases sceneOk <;>
      by_cases hp : p < VOLTAGE_ON_THRESHOLD <;>
        simp [async_set_hvac_mode, reqMatches, hmode, hl, hconf, hp, activationCount,
          List.countP_cons, List.countP_nil, isActivation] <;>
        exact le_of_not_lt hp
  · simp [timerSecondToggleCheck, hconf]
  · by_cases hp : VOLTAGE_ON_THRESHOLD < p <;>
      simp [powerSensorChanged, hmode, hl, hp]

/-- A concrete OFF runtime state with no recorded mode change. -/
def sOffNoCooldownW : HeaterState :=
  { hvac_mode := HVACMode.off, target_temperature := 20,
    heat_start_time := none, last_mode_change_time := none }

/-- Witness for C10 (amended) at a concrete input: reading 20 with the
power sensor configured. -/
theorem C10_witness :
    (activationCount (async_set_hvac_mode cfgW sOffNoCooldownW 100 (some 20) true
        ReqMode.heat).2 = 0 ↔ VOLTAGE_ON_THRESHOLD ≤ 20) ∧
    (timerSecondToggleCheck cfgW.powerSensorConfigured (some 20) = true ↔
      VOLTAGE_ON_THRESHOLD ≤ 20) ∧
    ((powerSensorChanged sOffNoCooldownW 100 101 (SensorReading.value 20)).1.hvac_mode =
        HVACMode.heat ↔ VOLTAGE_ON_THRESHOLD < 20) :=
  C10_threshold_classification cfgW sOffNoCooldownW 100 101 20 true rfl rfl rfl
